import Mathlib

/-!
Shallow embedding of the blackjack program (src/blackjack.py) and proofs of
the specification claims about it.

The embedding mirrors the Python source:
* `Card` carries a suit and a rank; the `Card.__init__` assertion restricts
  ranks to 0..12, so the embedded `Card` uses `Fin 13` and the fallible
  constructor is modelled separately as `Card.make` over an unrestricted
  integer rank, returning `Except`.
* `GameState` holds the deck and the two hands as lists, exactly as the
  Python class does; mutation is replaced by explicit state passing.
* `random.choice(self.deck)` is modelled by an explicit index into the deck:
  a draw is parameterised by which deck position the randomness picked.
* Raised exceptions (`UserBustException`, `DealerBustException`) become an
  `Except BustException Unit` result from `check_game_state`.
-/

inductive CardSuit where
  | spade
  | heart
  | club
  | diamond
deriving DecidableEq, Repr, Fintype

/-- The iteration order of `for suit in CardSuit` in the source. -/
def CardSuit.all : List CardSuit := [.spade, .heart, .club, .diamond]

/-- A constructed card: the `assert 0 <= rank <= 12` in `Card.__init__`
guarantees every live `Card` object has a rank in 0..12, so the rank is a
`Fin 13` here. -/
structure Card where
  suit : CardSuit
  rank : Fin 13
deriving DecidableEq, Repr, Fintype

/-- `Card.rank_value`: rank 0 is the ace (11 if `ace_high` else 1), ranks
1..9 yield `rank + 1`, ranks 10..12 yield 10.  The `ValueError` branch of
the source is unreachable for a constructed card, whose rank is in 0..12. -/
def Card.rank_value (c : Card) (ace_high : Bool) : Nat :=
  if c.rank.val = 0 then
    if ace_high then 11 else 1
  else if c.rank.val ≤ 9 then
    c.rank.val + 1
  else
    10

/-- The construction-time failure of `Card.__init__` (`assert 0 <= rank <= 12`). -/
inductive CardError where
  | invalidRank
deriving DecidableEq, Repr

/-- `Card.__init__` as a fallible constructor over an arbitrary integer rank:
it succeeds exactly when the assertion `0 <= rank <= 12` holds. -/
def Card.make (suit : CardSuit) (rank : Int) : Except CardError Card :=
  if h : 0 ≤ rank ∧ rank ≤ 12 then
    .ok ⟨suit, ⟨rank.toNat, by omega⟩⟩
  else
    .error .invalidRank

/-- `create_new_deck`: for each suit, for each rank in `range(0, 13)`,
construct the card and append it. -/
def create_new_deck : Except CardError (List Card) :=
  CardSuit.all.foldlM
    (fun deck suit =>
      (List.range 13).foldlM
        (fun deck rank => do
          let card ← Card.make suit (rank : Int)
          pure (deck ++ [card]))
        deck)
    []

/-- The concrete list of 52 cards that `create_new_deck` produces. -/
def theDeck : List Card := create_new_deck.toOption.getD []

/-- `GameState`: the deck and the two hands, as in the Python class. -/
structure GameState where
  deck : List Card
  dealer_cards : List Card
  user_cards : List Card
deriving DecidableEq, Repr

/-- `GameState._draw_card` is `random.choice(self.deck)`; the random choice
is modelled by the index `i` into the deck. -/
def GameState.draw_card (s : GameState) (i : Fin s.deck.length) : Card :=
  s.deck.get i

/-- `GameState._total_cards`: the minimum of the all-aces-high sum and the
all-aces-low sum of the hand. -/
def GameState.total_cards (cards : List Card) : Nat :=
  let card_values_ace_high := cards.map (fun card => card.rank_value true)
  let ace_high_sum := card_values_ace_high.sum
  let card_values_ace_low := cards.map (fun card => card.rank_value false)
  let ace_low_sum := card_values_ace_low.sum
  min ace_high_sum ace_low_sum

/-- `GameState._check_did_user_bust`. -/
def GameState.check_did_user_bust (s : GameState) : Bool :=
  decide (GameState.total_cards s.user_cards > 21)

/-- `GameState._check_did_dealer_bust`. -/
def GameState.check_did_dealer_bust (s : GameState) : Bool :=
  decide (GameState.total_cards s.dealer_cards > 21)

/-- `GameState.dealer_should_hit`: decision on the all-aces-high sum; hit
below 17, hit on 17 when an 11-valued card (an ace counted high) is in the
hand, stand otherwise. -/
def GameState.dealer_should_hit (s : GameState) : Bool :=
  let dealer_values := s.dealer_cards.map (fun card => card.rank_value true)
  let dealer_total := dealer_values.sum
  if dealer_total > 17 then
    false
  else if dealer_total = 17 then
    if 11 ∈ dealer_values then true else false
  else
    true

/-- `GameState.draw_card_for_dealer`: append the drawn card to the dealer hand. -/
def GameState.draw_card_for_dealer (s : GameState) (i : Fin s.deck.length) : GameState :=
  { s with dealer_cards := s.dealer_cards ++ [s.draw_card i] }

/-- `GameState.draw_card_for_user`: append the drawn card to the user hand. -/
def GameState.draw_card_for_user (s : GameState) (i : Fin s.deck.length) : GameState :=
  { s with user_cards := s.user_cards ++ [s.draw_card i] }

/-- The two bust exceptions of the source. -/
inductive BustException where
  | userBust
  | dealerBust
deriving DecidableEq, Repr

/-- `GameState.check_game_state`: raise `UserBustException` first if the user
bust, then `DealerBustException` if the dealer bust. -/
def GameState.check_game_state (s : GameState) : Except BustException Unit :=
  if s.check_did_user_bust then
    .error .userBust
  else if s.check_did_dealer_bust then
    .error .dealerBust
  else
    .ok ()

/-- The three outcome messages of `evaluate_game_state`. -/
inductive Outcome where
  | playerWins
  | dealerWins
  | push
deriving DecidableEq, Repr

/-- `evaluate_game_state`: each hand's sum starts as the all-aces-high sum
and is recomputed as the all-aces-low sum only when the high sum exceeds 21;
then the two sums are compared. -/
def evaluate_game_state (s : GameState) : Outcome :=
  let user_sum_high : Nat := (s.user_cards.map (fun card => card.rank_value true)).sum
  let user_sum : Nat :=
    if user_sum_high > 21 then
      (s.user_cards.map (fun card => card.rank_value false)).sum
    else
      user_sum_high
  let dealer_sum_high : Nat := (s.dealer_cards.map (fun card => card.rank_value true)).sum
  let dealer_sum : Nat :=
    if dealer_sum_high > 21 then
      (s.dealer_cards.map (fun card => card.rank_value false)).sum
    else
      dealer_sum_high
  if user_sum > dealer_sum then
    .playerWins
  else if dealer_sum > user_sum then
    .dealerWins
  else
    .push

/-- The per-hand total that `evaluate_game_state` actually compares: the
all-aces-high sum unless it exceeds 21, in which case the all-aces-low sum. -/
def settled_total (cards : List Card) : Nat :=
  let high := (cards.map (fun card => card.rank_value true)).sum
  if high > 21 then (cards.map (fun card => card.rank_value false)).sum else high

/-- The Settled-state rule as the specification words it (§4.4): compare the
hands by the Hand Evaluator total of §4.2, i.e. by `GameState.total_cards`.
Written from the spec for comparison against `evaluate_game_state`. -/
def spec_evaluate_settled (s : GameState) : Outcome :=
  let user_total := GameState.total_cards s.user_cards
  let dealer_total := GameState.total_cards s.dealer_cards
  if user_total > dealer_total then
    .playerWins
  else if dealer_total > user_total then
    .dealerWins
  else
    .push

/-- The hand "Ace, Ace, 9" of spec §8: two aces and the card displayed "9"
(rank 8, value 9). -/
def ace_ace_nine : List Card :=
  [Card.mk CardSuit.spade 0, Card.mk CardSuit.heart 0, Card.mk CardSuit.club 8]

/-- A settled round: the user holds Ace plus the "9" card (all-high sum 20,
all-low sum 10); the dealer holds the "10" and "5" cards (sum 15 either way). -/
def settled_example_state : GameState :=
  GameState.mk []
    [Card.mk CardSuit.spade 9, Card.mk CardSuit.heart 4]
    [Card.mk CardSuit.club 0, Card.mk CardSuit.diamond 8]

/-- A card's ace-low value never exceeds its ace-high value: the two differ
only at rank 0, where they are 1 and 11. -/
theorem Card.rank_value_low_le_high (c : Card) :
    c.rank_value false ≤ c.rank_value true := by
  revert c
  decide

/-- A card's ace-low value is at most 10. -/
theorem Card.rank_value_low_le_ten (c : Card) : c.rank_value false ≤ 10 := by
  revert c
  decide

/-- C2: for every hand, `total_cards` is the minimum of the all-aces-high sum
and the all-aces-low sum, and the user/dealer bust checks hold exactly when
the corresponding hand's total exceeds 21. -/
theorem total_cards_min_and_bust_iff : ∀ (cards : List Card) (s : GameState),
    GameState.total_cards cards =
      min ((cards.map (fun card => card.rank_value true)).sum)
          ((cards.map (fun card => card.rank_value false)).sum) ∧
    (s.check_did_user_bust = true ↔ GameState.total_cards s.user_cards > 21) ∧
    (s.check_did_dealer_bust = true ↔ GameState.total_cards s.dealer_cards > 21) := by
  intro cards s
  refine ⟨rfl, ?_, ?_⟩ <;>
    simp [GameState.check_did_user_bust, GameState.check_did_dealer_bust]

/-- C3 counterexample: the claim says ranks 1..9 map to rank + 2, but the
card of rank 1 has value 2 (it displays as "2"), not 1 + 2 = 3. -/
theorem rank_value_rank_one_is_two :
    (Card.mk CardSuit.spade 1).rank_value true = 2 ∧
    (Card.mk CardSuit.spade 1).rank_value false = 2 ∧
    (Card.mk CardSuit.spade 1).rank_value true ≠ 1 + 2 := by decide

/-- C3 amended: ranks 1..9 map to rank + 1 under both ace interpretations,
ranks 10..12 map to 10, and rank 0 (the ace) maps to 11 when `ace_high` and
1 otherwise. -/
theorem rank_value_cases : ∀ (s : CardSuit) (r : Fin 13) (b : Bool),
    (1 ≤ r.val → r.val ≤ 9 → (Card.mk s r).rank_value b = r.val + 1) ∧
    (10 ≤ r.val → (Card.mk s r).rank_value b = 10) ∧
    (r.val = 0 → (Card.mk s r).rank_value b = if b then 11 else 1) := by decide

/-- Witness for `rank_value_cases` at ranks 5, 12 and 0. -/
theorem rank_value_cases_witness :
    (Card.mk CardSuit.spade 5).rank_value true = (5 : Fin 13).val + 1 ∧
    (Card.mk CardSuit.heart 12).rank_value false = 10 ∧
    (Card.mk CardSuit.club 0).rank_value true = if true then 11 else 1 :=
  ⟨(rank_value_cases CardSuit.spade 5 true).1 (by decide) (by decide),
   (rank_value_cases CardSuit.heart 12 false).2.1 (by decide),
   (rank_value_cases CardSuit.club 0 true).2.2 (by decide)⟩

/-- C6 counterexample: the all-aces-high sum of the hand "Ace, Ace, 9" is
11 + 11 + 9 = 31, not 21 as the claim states. -/
theorem ace_ace_nine_high_sum_is_31 :
    (ace_ace_nine.map (fun card => card.rank_value true)).sum = 31 ∧
    (ace_ace_nine.map (fun card => card.rank_value true)).sum ≠ 21 := by decide

/-- C6 amended: for the hand "Ace, Ace, 9" the all-aces-high sum is 31, the
all-aces-low sum is 11, and `total_cards` returns their minimum, 11 — the
all-aces-flip rule, not per-ace optimal resolution (which would give 21). -/
theorem ace_ace_nine_total :
    (ace_ace_nine.map (fun card => card.rank_value true)).sum = 31 ∧
    (ace_ace_nine.map (fun card => card.rank_value false)).sum = 11 ∧
    GameState.total_cards ace_ace_nine = min 31 11 ∧
    GameState.total_cards ace_ace_nine = 11 := by decide

/-- C9: the evaluator's minimum always collapses to the all-aces-low sum,
because every card's ace-low value is at most its ace-high value; so
`total_cards` counts every ace as 1. -/
theorem total_cards_eq_low_sum : ∀ cards : List Card,
    GameState.total_cards cards =
      (cards.map (fun card => card.rank_value false)).sum := by
  intro cards
  exact min_eq_right (List.sum_le_sum (fun c _ => Card.rank_value_low_le_high c))

/-- C1 counterexample: in the settled comparison the code reports
PlayerWins for a round where the Hand Evaluator (min-of-two) totals are
10 for the player and 15 for the dealer, which under the claimed rule would
be DealerWins; so the settled totals are not the §4.2 minima. -/
theorem evaluate_not_min_rule :
    evaluate_game_state settled_example_state = Outcome.playerWins ∧
    GameState.total_cards settled_example_state.user_cards = 10 ∧
    GameState.total_cards settled_example_state.dealer_cards = 15 ∧
    spec_evaluate_settled settled_example_state = Outcome.dealerWins := by decide

/-- C1 amended: in the settled state each hand's total is the all-aces-high
sum unless it exceeds 21, in which case the all-aces-low sum
(`settled_total`); the outcome is PlayerWins exactly when the player's such
total is strictly higher, DealerWins exactly when the dealer's is strictly
higher, and Push exactly when they are equal. -/
theorem evaluate_uses_settled_totals : ∀ s : GameState,
    (evaluate_game_state s = Outcome.playerWins ↔
      settled_total s.user_cards > settled_total s.dealer_cards) ∧
    (evaluate_game_state s = Outcome.dealerWins ↔
      settled_total s.dealer_cards > settled_total s.user_cards) ∧
    (evaluate_game_state s = Outcome.push ↔
      settled_total s.user_cards = settled_total s.dealer_cards) := by
  intro s
  have heq : evaluate_game_state s =
      (if settled_total s.user_cards > settled_total s.dealer_cards then
        Outcome.playerWins
      else if settled_total s.dealer_cards > settled_total s.user_cards then
        Outcome.dealerWins
      else
        Outcome.push) := rfl
  rw [heq]
  split_ifs with h1 h2 <;> refine ⟨?_, ?_, ?_⟩ <;> simp <;> omega

/-- C4: the dealer hits exactly when the all-aces-high sum of the dealer
hand is below 17, or equals 17 with some card counted as 11 (an ace); checked
on the four example hands "Ace,6", "10,7", "10,9" and "5,4". -/
theorem dealer_should_hit_spec :
    (∀ s : GameState, s.dealer_should_hit = true ↔
      ((s.dealer_cards.map (fun card => card.rank_value true)).sum < 17 ∨
       ((s.dealer_cards.map (fun card => card.rank_value true)).sum = 17 ∧
        11 ∈ s.dealer_cards.map (fun card => card.rank_value true)))) ∧
    (GameState.mk [] [Card.mk CardSuit.spade 0, Card.mk CardSuit.heart 5] []).dealer_should_hit = true ∧
    (GameState.mk [] [Card.mk CardSuit.spade 9, Card.mk CardSuit.heart 6] []).dealer_should_hit = false ∧
    (GameState.mk [] [Card.mk CardSuit.spade 9, Card.mk CardSuit.heart 8] []).dealer_should_hit = false ∧
    (GameState.mk [] [Card.mk CardSuit.spade 4, Card.mk CardSuit.heart 3] []).dealer_should_hit = true := by
  refine ⟨?_, by decide, by decide, by decide, by decide⟩
  intro s
  simp only [GameState.dealer_should_hit]
  split_ifs with h1 h2 h3
  · simp only [Bool.false_eq_true, false_iff]
    rintro (hlt | ⟨heq, _⟩) <;> omega
  · exact iff_of_true rfl (Or.inr ⟨h2, h3⟩)
  · simp only [Bool.false_eq_true, false_iff]
    rintro (hlt | ⟨heq, hmem⟩)
    · omega
    · exact h3 hmem
  · exact iff_of_true rfl (Or.inl (by omega))

/-- C5: a draw (for user or dealer) leaves the deck unchanged, appends the
chosen deck card — a member of the deck — to the corresponding hand, and
leaves the other hand unchanged. -/
theorem draw_card_frame : ∀ (s : GameState) (i : Fin s.deck.length),
    ((s.draw_card_for_user i).deck = s.deck ∧
     (s.draw_card_for_user i).dealer_cards = s.dealer_cards ∧
     (s.draw_card_for_user i).user_cards = s.user_cards ++ [s.deck.get i] ∧
     s.deck.get i ∈ s.deck) ∧
    ((s.draw_card_for_dealer i).deck = s.deck ∧
     (s.draw_card_for_dealer i).user_cards = s.user_cards ∧
     (s.draw_card_for_dealer i).dealer_cards = s.dealer_cards ++ [s.deck.get i] ∧
     s.deck.get i ∈ s.deck) := by
  intro s i
  exact ⟨⟨rfl, rfl, rfl, List.get_mem s.deck i.val i.isLt⟩,
         ⟨rfl, rfl, rfl, List.get_mem s.deck i.val i.isLt⟩⟩

/-- C7: constructing a card succeeds exactly when the rank lies in [0, 12],
fails with `invalidRank` otherwise, and the fixed deck generation (ranks 0
through 12 for each suit) never fails, yielding the 52-card deck. -/
theorem card_make_and_deck :
    (∀ (s : CardSuit) (r : Int), (∃ c, Card.make s r = Except.ok c) ↔ (0 ≤ r ∧ r ≤ 12)) ∧
    (∀ (s : CardSuit) (r : Int), ¬(0 ≤ r ∧ r ≤ 12) →
      Card.make s r = Except.error CardError.invalidRank) ∧
    create_new_deck = Except.ok theDeck ∧
    theDeck.length = 52 := by
  refine ⟨?_, ?_, rfl, rfl⟩
  · intro s r
    constructor
    · rintro ⟨c, hc⟩
      by_contra hr
      unfold Card.make at hc
      rw [dif_neg hr] at hc
      cases hc
    · intro hr
      refine ⟨Card.mk s ⟨r.toNat, by omega⟩, ?_⟩
      unfold Card.make
      rw [dif_pos hr]
  · intro s r hr
    unfold Card.make
    rw [dif_neg hr]

/-- Witness for `card_make_and_deck`: rank 13 is rejected with `invalidRank`. -/
theorem card_make_witness :
    Card.make CardSuit.spade 13 = Except.error CardError.invalidRank :=
  card_make_and_deck.2.1 CardSuit.spade 13 (by decide)

/-- C8: `total_cards` is invariant under permutation of the hand. -/
theorem total_cards_perm_invariant : ∀ (h1 h2 : List Card), h1.Perm h2 →
    GameState.total_cards h1 = GameState.total_cards h2 := by
  intro h1 h2 hp
  simp only [GameState.total_cards]
  rw [(hp.map (fun card => card.rank_value true)).sum_eq,
      (hp.map (fun card => card.rank_value false)).sum_eq]

/-- Witness for `total_cards_perm_invariant`: swapping an ace and a "9". -/
theorem total_cards_perm_witness :
    GameState.total_cards [Card.mk CardSuit.spade 0, Card.mk CardSuit.club 8] =
      GameState.total_cards [Card.mk CardSuit.club 8, Card.mk CardSuit.spade 0] :=
  total_cards_perm_invariant _ _
    (List.Perm.swap (Card.mk CardSuit.club 8) (Card.mk CardSuit.spade 0) [])

/-- C10: every two-card hand totals at most 20 (each ace-low value is at
most 10 and `total_cards` never exceeds the ace-low sum), hence is not bust;
so while the dealer still holds only the two initially dealt cards,
`check_game_state` can never raise the dealer-bust exception. -/
theorem two_card_hand_not_bust :
    (∀ cards : List Card, cards.length = 2 → GameState.total_cards cards ≤ 20) ∧
    (∀ s : GameState, s.dealer_cards.length = 2 →
      s.check_game_state ≠ Except.error BustException.dealerBust) := by
  have part1 : ∀ cards : List Card, cards.length = 2 → GameState.total_cards cards ≤ 20 := by
    intro cards hlen
    match cards, hlen with
    | [a, b], _ =>
      have hla := Card.rank_value_low_le_ten a
      have hlb := Card.rank_value_low_le_ten b
      have hmin : GameState.total_cards [a, b] ≤
          ([a, b].map (fun card => card.rank_value false)).sum := min_le_right _ _
      simp only [List.map_cons, List.map_nil, List.sum_cons, List.sum_nil] at hmin
      omega
  refine ⟨part1, ?_⟩
  intro s hlen
  have h20 := part1 s.dealer_cards hlen
  unfold GameState.check_game_state
  split_ifs with h1 h2
  · simp
  · exfalso
    have hgt : GameState.total_cards s.dealer_cards > 21 :=
      of_decide_eq_true h2
    omega
  · simp

/-- Witness for `two_card_hand_not_bust`: the hand "Ace, King" and a state
where the dealer holds "10, 7" against a user holding "10, 9". -/
theorem two_card_hand_not_bust_witness :
    GameState.total_cards [Card.mk CardSuit.spade 0, Card.mk CardSuit.club 12] ≤ 20 ∧
    (GameState.mk [] [Card.mk CardSuit.spade 9, Card.mk CardSuit.heart 6]
        [Card.mk CardSuit.club 9, Card.mk CardSuit.diamond 8]).check_game_state ≠
      Except.error BustException.dealerBust :=
  ⟨two_card_hand_not_bust.1 _ (by decide), two_card_hand_not_bust.2 _ (by decide)⟩
